import Mathlib

/-!
Shallow embedding of `src/matter_config.py` (a Matter device attribute
configuration tool).

The Python program drives an external Matter client over a websocket.  The
embedding makes the environment explicit: each call the program issues to the
client (`read_attribute`, `write_attribute`, plus the connection phase) is
given its response as an input of type `Except Exn PyVal` (`.error` models the
call raising an exception, `.ok v` models it returning the Python value `v`).
Each function additionally returns the list of observable events it produces,
in order: the log records it emits (with the same interpolated message strings
as the source) and the requests it issues to the client.  The fixed
`asyncio.sleep(2)` is recorded as an event.
-/

namespace MatterConfig

/-- A Python exception, reduced to the message string that the source
interpolates into its error logs. -/
abbrev Exn := String

/-- Scalar Python values occurring in this program: `None`, `int`, `str`. -/
inductive Scalar where
  | snone : Scalar
  | sint : Int → Scalar
  | sstr : String → Scalar
deriving DecidableEq, Repr

/-- Python values the Matter client may deliver: a scalar, or a dict mapping
path strings to scalars (the shape the Matter server uses for read results). -/
inductive PyVal where
  | scalar : Scalar → PyVal
  | vdict : List (String × Scalar) → PyVal
deriving DecidableEq, Repr

/-- The Python value `None`. -/
def pNone : PyVal := PyVal.scalar Scalar.snone

/-- Python `repr` of a scalar, as it appears inside a dict's `str()`. -/
def scalarRepr : Scalar → String
  | .snone => "None"
  | .sint n => toString n
  | .sstr s => "'" ++ s ++ "'"

/-- Python `str` of a value, as used by f-string interpolation in the logs. -/
def pyStr : PyVal → String
  | .scalar .snone => "None"
  | .scalar (.sint n) => toString n
  | .scalar (.sstr s) => s
  | .vdict d =>
      "\x7b" ++ String.intercalate ", "
        (d.map fun p => "'" ++ p.1 ++ "': " ++ scalarRepr p.2) ++ "\x7d"

/-- The attribute path string `f"{endpoint_id}/{cluster_id}/{attribute_id}"`
built by both `read_attribute_value` and `write_attribute_value`. -/
def attributePath (endpoint_id cluster_id attribute_id : Int) : String :=
  toString endpoint_id ++ "/" ++ toString cluster_id ++ "/" ++ toString attribute_id

/-- Observable events of a run: log records at their severity, requests
issued to the Matter client, and the fixed sleep. -/
inductive Event where
  | logDebug : String → Event
  | logInfo : String → Event
  | logWarning : String → Event
  | logError : String → Event
  | connectRequest : String → Event
  | readRequest : Int → String → Event
  | writeRequest : Int → String → Int → Event
  | sleepFor : Nat → Event
deriving DecidableEq, Repr

/-- Embedding of `read_attribute_value` (matter_config.py lines 29-57).
`resp` is the outcome of the one `client.read_attribute` call the function
issues.  The `try`/`except` of the source is the `.error` branch: every client
exception is converted to the return value `None`.  Returns the Python return
value together with the events emitted. -/
def read_attribute_value (resp : Except Exn PyVal)
    (node_id endpoint_id cluster_id attribute_id : Int) : PyVal × List Event :=
  let attribute_path := attributePath endpoint_id cluster_id attribute_id
  let pre := [Event.logDebug ("Reading attribute " ++ attribute_path ++ " from node " ++ toString node_id),
              Event.readRequest node_id attribute_path]
  match resp with
  | .error e =>
      (pNone, pre ++ [Event.logError ("Error reading attribute " ++ attribute_path ++ ": " ++ e)])
  | .ok result =>
      if result ≠ pNone then
        let okLog := Event.logDebug ("Successfully read attribute " ++ attribute_path ++ ": " ++ pyStr result)
        let asIsLog := Event.logDebug ("Result is not a dict or doesn't contain expected key, returning as-is: " ++ pyStr result)
        match result with
        | .vdict d =>
            match d.lookup attribute_path with
            | some actual_value =>
                (PyVal.scalar actual_value,
                 pre ++ [okLog, Event.logDebug ("Extracted value: " ++ pyStr (PyVal.scalar actual_value))])
            | none => (result, pre ++ [okLog, asIsLog])
        | _ => (result, pre ++ [okLog, asIsLog])
      else
        (pNone, pre ++ [Event.logError ("Failed to read attribute " ++ attribute_path ++ ": No result returned")])

/-- Embedding of `write_attribute_value` (matter_config.py lines 60-75).
`resp` is the outcome of the one `client.write_attribute` call: `.ok v` means
the call returned the value `v` (which the source discards), `.error e` means
it raised.  Returns the Python boolean return value and the events emitted. -/
def write_attribute_value (resp : Except Exn PyVal)
    (node_id endpoint_id cluster_id attribute_id : Int) (value : Int) : Bool × List Event :=
  let attribute_path := attributePath endpoint_id cluster_id attribute_id
  let pre := [Event.logDebug ("Writing value " ++ toString value ++ " to attribute " ++ attribute_path ++ " on node " ++ toString node_id),
              Event.writeRequest node_id attribute_path value]
  match resp with
  | .ok _ =>
      (true, pre ++ [Event.logInfo ("Successfully wrote value " ++ toString value ++ " to attribute " ++ attribute_path)])
  | .error e =>
      (false, pre ++ [Event.logError ("Error writing attribute " ++ attribute_path ++ ": " ++ e)])

/-- The sixty-character separator `"=" * 60` logged by the source. -/
def sixtyEquals : String := String.mk (List.replicate 60 '=')

/-- Embedding of `configure_attribute_value` (matter_config.py lines 78-140).
`connect` is the outcome of the connection phase (session set-up,
`start_listening`, waiting for the connect event): its `.error` case is the
only exception that reaches the outer `try`/`except`, since the read and
write helpers catch their own.  `readResp1`, `writeResp`, `readResp2` are the
client's responses to the baseline read, the write, and the verification read,
in program order.  Returns the Python boolean result and the event trace. -/
def configure_attribute_value (new_value node_id endpoint_id cluster_id attribute_id : Int)
    (server_url : String) (connect : Except Exn Unit)
    (readResp1 writeResp readResp2 : Except Exn PyVal) : Bool × List Event :=
  let header := [Event.logInfo sixtyEquals,
                 Event.logInfo "Matter Device Attribute Configuration",
                 Event.logInfo sixtyEquals,
                 Event.logInfo "Connecting to Matter server...",
                 Event.connectRequest server_url]
  match connect with
  | .error e => (false, header ++ [Event.logError ("Unexpected error: " ++ e)])
  | .ok _ =>
    let ev1 := header ++ [Event.logInfo "Connected to Matter server",
                          Event.logInfo ("Proceeding with node " ++ toString node_id ++ "..."),
                          Event.logInfo "Reading current attribute value..."]
    let r1 := read_attribute_value readResp1 node_id endpoint_id cluster_id attribute_id
    let current_value := r1.1
    let ev2 := ev1 ++ r1.2 ++
      (if current_value ≠ pNone then
        [Event.logInfo ("Current attribute value: " ++ pyStr current_value)]
       else
        [Event.logWarning "Could not read current attribute value, proceeding anyway..."])
    let ev3 := ev2 ++ [Event.logInfo ("Setting attribute to " ++ toString new_value ++ "...")]
    let w := write_attribute_value writeResp node_id endpoint_id cluster_id attribute_id new_value
    let success := w.1
    let ev4 := ev3 ++ w.2
    if success = false then
      (false, ev4)
    else
      let ev5 := ev4 ++ [Event.logInfo "Verifying the change...", Event.sleepFor 2]
      let r2 := read_attribute_value readResp2 node_id endpoint_id cluster_id attribute_id
      let verified_value := r2.1
      let ev6 := ev5 ++ r2.2
      if verified_value ≠ pNone then
        if verified_value = PyVal.scalar (Scalar.sint new_value) then
          (true, ev6 ++ [Event.logInfo ("✓ Successfully configured attribute to " ++ pyStr verified_value ++ "!"),
                         Event.logInfo "The device attribute has been updated."])
        else
          (false, ev6 ++ [Event.logWarning ("Attribute was set but shows unexpected value: " ++ pyStr verified_value ++ " (expected " ++ toString new_value ++ ")")])
      else
        (false, ev6 ++ [Event.logWarning "Could not verify the new attribute value"])

/-- Python `str.strip()` on the characters of an input line: drop whitespace
from both ends. -/
def pyStrip (l : List Char) : List Char :=
  ((l.dropWhile Char.isWhitespace).reverse.dropWhile Char.isWhitespace).reverse

/-- Digit accumulator for `pyParseInt`. -/
def pyDigitsAcc : List Char → Nat → Option Nat
  | [], acc => some acc
  | c :: rest, acc =>
      if c.isDigit then pyDigitsAcc rest (acc * 10 + (c.toNat - 48)) else none

/-- One or more decimal digits. -/
def pyParseNat (l : List Char) : Option Nat :=
  match l with
  | [] => none
  | _ => pyDigitsAcc l 0

/-- Python `int()` applied to a stripped input line, for the decimal literals
relevant here: an optional sign followed by one or more digits. -/
def pyParseInt (l : List Char) : Option Int :=
  match l with
  | '-' :: rest => (pyParseNat rest).map (fun n => -(n : Int))
  | '+' :: rest => (pyParseNat rest).map (fun n => (n : Int))
  | _ => (pyParseNat l).map (fun n => (n : Int))

/-- Embedding of `get_user_input` (matter_config.py lines 174-188) over the
remaining stdin lines (each a list of characters): skip blank lines and lines
that `int()` rejects, return the first parsed integer together with the
unconsumed lines.  The source loops forever when no line ever parses; the
embedding returns `none` once the (finite) input list is exhausted. -/
def get_user_input : List (List Char) → Option (Int × List (List Char))
  | [] => none
  | line :: rest =>
      let user_input := pyStrip line
      if user_input.isEmpty then get_user_input rest
      else
        match pyParseInt user_input with
        | some value => some (value, rest)
        | none => get_user_input rest

/-- The parsed command-line arguments (matter_config.py lines 163-169): five
optional integers (argparse `type=int` performs no sign check) and the server
url with its default. -/
structure Args where
  node_id : Option Int
  endpoint_id : Option Int
  cluster_id : Option Int
  attribute_id : Option Int
  attribute_value : Option Int
  url : String
deriving Repr

/-- `args.x if args.x is not None else get_user_input(...)` (lines 211-215),
threading the stdin lines. -/
def resolveValue (arg : Option Int) (stdin : List (List Char)) :
    Option (Int × List (List Char)) :=
  match arg with
  | some v => some (v, stdin)
  | none => get_user_input stdin

/-- The confirmation gate of `main` (lines 232-233):
`input(...).strip().lower()` followed by `.startswith('y')`.  Python's
`str.lower` is modelled by `Char.toLower` (ASCII case shift), which agrees
with it on the question whether the first character becomes `'y'`. -/
def confirmGate (answer : List Char) : Bool :=
  match ((pyStrip answer).map Char.toLower) with
  | [] => false
  | c :: _ => c = 'y'

/-- The same gate as the spec words it: the answer, after trimming
surrounding whitespace, starts with `'y'` or `'Y'`.  Stated from the spec for
comparison with `confirmGate`, which is taken from the source. -/
def specGate (answer : List Char) : Bool :=
  match pyStrip answer with
  | [] => false
  | c :: _ => c = 'y' || c = 'Y'

/-- Outcome of a `main` run: the stdin list ran dry (a model artifact standing
for the source's unbounded re-prompt loop), the user declined the
confirmation, or the configuration sequence ran with the given boolean result
and event trace. -/
inductive MainOutcome where
  | outOfInput : MainOutcome
  | cancelled : MainOutcome
  | ran : Bool → List Event → MainOutcome
deriving DecidableEq, Repr

/-- The event trace of a `main` run; empty unless the configuration ran. -/
def MainOutcome.trace : MainOutcome → List Event
  | .ran _ t => t
  | _ => []

/-- Embedding of `main` (matter_config.py lines 191-256) from argument
resolution onward: resolve the five values (CLI argument or interactive
input), read the confirmation answer from the next stdin line, and either
cancel or run `configure_attribute_value`.  The surrounding banner and
report printing carries no decisions and is not modelled. -/
def main_run (args : Args) (stdin : List (List Char)) (connect : Except Exn Unit)
    (readResp1 writeResp readResp2 : Except Exn PyVal) : MainOutcome :=
  match resolveValue args.node_id stdin with
  | none => .outOfInput
  | some (node_id, s1) =>
  match resolveValue args.endpoint_id s1 with
  | none => .outOfInput
  | some (endpoint_id, s2) =>
  match resolveValue args.cluster_id s2 with
  | none => .outOfInput
  | some (cluster_id, s3) =>
  match resolveValue args.attribute_id s3 with
  | none => .outOfInput
  | some (attribute_id, s4) =>
  match resolveValue args.attribute_value s4 with
  | none => .outOfInput
  | some (attribute_value, s5) =>
  match s5 with
  | [] => .outOfInput
  | confirm :: _ =>
      if confirmGate confirm then
        let r := configure_attribute_value attribute_value node_id endpoint_id
          cluster_id attribute_id args.url connect readResp1 writeResp readResp2
        .ran r.1 r.2
      else .cancelled

/-- The warning logged when the verification read shows a value different
from the requested one (line 132). -/
def mismatchWarning (v : PyVal) (new_value : Int) : Event :=
  Event.logWarning ("Attribute was set but shows unexpected value: " ++ pyStr v ++ " (expected " ++ toString new_value ++ ")")

/-- The warning logged when the verification read returns no value (line 135). -/
def absentWarning : Event :=
  Event.logWarning "Could not verify the new attribute value"

/-- Recognizes the read requests in a trace. -/
def isReadRequest : Event → Bool
  | .readRequest _ _ => true
  | _ => false

/-- The source's `isinstance(result, dict) and attribute_path in result`
test (line 43) as a boolean on the embedded value. -/
def dictHasPath (r : PyVal) (path : String) : Bool :=
  match r with
  | .vdict d => (d.lookup path).isSome
  | _ => false

/-! ### Helper lemmas -/

/-- An integer scalar is never the Python `None`. -/
@[simp]
lemma sint_ne_pNone (n : Int) : (PyVal.scalar (Scalar.sint n) = pNone) = False := by
  simp [pNone]

/-- A `read_attribute_value` call emits exactly one read request. -/
lemma countP_read_trace (resp : Except Exn PyVal) (node_id endpoint_id cluster_id attribute_id : Int) :
    ((read_attribute_value resp node_id endpoint_id cluster_id attribute_id).2.countP isReadRequest) = 1 := by
  cases resp with
  | error e => simp [read_attribute_value, isReadRequest]
  | ok result =>
      by_cases hr : result = pNone
      · simp [read_attribute_value, hr, isReadRequest]
      · cases result with
        | scalar s => simp [read_attribute_value, hr, isReadRequest]
        | vdict d =>
            cases hl : d.lookup (attributePath endpoint_id cluster_id attribute_id) with
            | none => simp [read_attribute_value, hr, hl, isReadRequest]
            | some v => simp [read_attribute_value, hr, hl, isReadRequest]

/-- A `write_attribute_value` call emits no read request. -/
lemma countP_write_trace (resp : Except Exn PyVal) (node_id endpoint_id cluster_id attribute_id value : Int) :
    ((write_attribute_value resp node_id endpoint_id cluster_id attribute_id value).2.countP isReadRequest) = 0 := by
  cases resp <;> simp [write_attribute_value, isReadRequest]

/-- `read_attribute_value` emits no warning-level log record. -/
lemma read_no_warning (resp : Except Exn PyVal) (node_id endpoint_id cluster_id attribute_id : Int)
    (s : String) :
    Event.logWarning s ∉ (read_attribute_value resp node_id endpoint_id cluster_id attribute_id).2 := by
  cases resp with
  | error e => simp [read_attribute_value]
  | ok result =>
      by_cases hr : result = pNone
      · simp [read_attribute_value, hr]
      · cases result with
        | scalar sc => simp [read_attribute_value, hr]
        | vdict d =>
            cases hl : d.lookup (attributePath endpoint_id cluster_id attribute_id) with
            | none => simp [read_attribute_value, hr, hl]
            | some v => simp [read_attribute_value, hr, hl]

/-- `write_attribute_value` emits no warning-level log record. -/
lemma write_no_warning (resp : Except Exn PyVal) (node_id endpoint_id cluster_id attribute_id value : Int)
    (s : String) :
    Event.logWarning s ∉ (write_attribute_value resp node_id endpoint_id cluster_id attribute_id value).2 := by
  cases resp <;> simp [write_attribute_value]

/-- Every `write_attribute_value` call records its write request. -/
lemma writeRequest_mem (resp : Except Exn PyVal) (node_id endpoint_id cluster_id attribute_id value : Int) :
    Event.writeRequest node_id (attributePath endpoint_id cluster_id attribute_id) value ∈
      (write_attribute_value resp node_id endpoint_id cluster_id attribute_id value).2 := by
  cases resp <;> simp [write_attribute_value]

/-- Every `read_attribute_value` call records its read request. -/
lemma readRequest_mem (resp : Except Exn PyVal) (node_id endpoint_id cluster_id attribute_id : Int) :
    Event.readRequest node_id (attributePath endpoint_id cluster_id attribute_id) ∈
      (read_attribute_value resp node_id endpoint_id cluster_id attribute_id).2 := by
  cases resp with
  | error e => simp [read_attribute_value]
  | ok result =>
      by_cases hr : result = pNone
      · simp [read_attribute_value, hr]
      · cases result with
        | scalar sc => simp [read_attribute_value, hr]
        | vdict d =>
            cases hl : d.lookup (attributePath endpoint_id cluster_id attribute_id) with
            | none => simp [read_attribute_value, hr, hl]
            | some v => simp [read_attribute_value, hr, hl]

/-- The boolean result of a run with a successful connection, as a function of
the write result and the verification read. -/
lemma configure_result_ok (new_value node_id endpoint_id cluster_id attribute_id : Int)
    (url : String) (r1 w r2 : Except Exn PyVal) :
    (configure_attribute_value new_value node_id endpoint_id cluster_id attribute_id url (.ok ()) r1 w r2).1 =
      if (write_attribute_value w node_id endpoint_id cluster_id attribute_id new_value).1 = false then
        false
      else if (read_attribute_value r2 node_id endpoint_id cluster_id attribute_id).1 ≠ pNone then
        (if (read_attribute_value r2 node_id endpoint_id cluster_id attribute_id).1 =
            PyVal.scalar (Scalar.sint new_value) then true else false)
      else false := by
  simp only [configure_attribute_value]
  split
  · rfl
  · split
    · split <;> rfl
    · rfl

/-- ASCII lower-casing sends a character to `'y'` exactly when it is `'y'`
or `'Y'`. -/
lemma toLower_eq_y_iff (ch : Char) : Char.toLower ch = 'y' ↔ ch = 'y' ∨ ch = 'Y' := by
  unfold Char.toLower
  by_cases h : ch.toNat ≥ 65 ∧ ch.toNat ≤ 90
  · rw [if_pos h]
    obtain ⟨h1, h2⟩ := h
    have hc : ch = Char.ofNat ch.toNat := (Char.ofNat_toNat ch).symm
    generalize hg : ch.toNat = n at h1 h2 hc
    subst hc
    interval_cases n <;> decide
  · rw [if_neg h]
    constructor
    · intro h'
      exact Or.inl h'
    · rintro (rfl | rfl)
      · rfl
      · exact absurd (by decide) h

/-- The absent-verification warning text differs from the mismatch warning
text, whatever value is interpolated into the latter. -/
lemma absent_msg_ne_mismatch_msg (s t : String) :
    ¬ "Could not verify the new attribute value" =
      "Attribute was set but shows unexpected value: " ++ s ++ " (expected " ++ t ++ ")" := by
  intro h
  have hlen := congrArg String.length h
  simp only [String.length_append] at hlen
  have h1 : ("Could not verify the new attribute value").length = 40 := rfl
  have h2 : ("Attribute was set but shows unexpected value: ").length = 46 := rfl
  have h3 : (" (expected ").length = 11 := rfl
  have h4 : (")").length = 1 := rfl
  omega

/-! ### Claim theorems -/

/-- C5: every exception raised by the client during a read call or a write
call is caught at the point of call and converted into the failure result
(`None` for `read_attribute_value`, `False` for `write_attribute_value`);
neither helper propagates an exception — in the embedding both are total
functions and map every `.error` response to the converted failure value. -/
theorem client_exceptions_converted (e : Exn)
    (node_id endpoint_id cluster_id attribute_id value : Int) :
    (read_attribute_value (.error e) node_id endpoint_id cluster_id attribute_id).1 = pNone ∧
    (write_attribute_value (.error e) node_id endpoint_id cluster_id attribute_id value).1 = false :=
  ⟨rfl, rfl⟩

/-- C9: `write_attribute_value` returns `True` exactly when the client's
write call does not raise: it returns `True` on every `.ok` response, `False`
on every raised exception, and its entire output is independent of the value
the client returned — a failure reported by return value still counts as
success. -/
theorem write_ignores_client_status (node_id endpoint_id cluster_id attribute_id value : Int)
    (r r' : PyVal) (e : Exn) :
    (write_attribute_value (.ok r) node_id endpoint_id cluster_id attribute_id value).1 = true ∧
    (write_attribute_value (.error e) node_id endpoint_id cluster_id attribute_id value).1 = false ∧
    write_attribute_value (.ok r) node_id endpoint_id cluster_id attribute_id value =
      write_attribute_value (.ok r') node_id endpoint_id cluster_id attribute_id value :=
  ⟨rfl, rfl, rfl⟩

/-- C6: the read and the write address the attribute with exactly the string
`"<endpointId>/<clusterId>/<attributeId>"` (the three integers joined by
`'/'`) — both requests carry `attributePath`, which is that join — and when
the read result is a mapping keyed by that string, the value stored under the
key is returned. -/
theorem attribute_path_encoding (resp : Except Exn PyVal)
    (node_id endpoint_id cluster_id attribute_id value : Int)
    (d : List (String × Scalar)) (v : Scalar)
    (hd : d.lookup (attributePath endpoint_id cluster_id attribute_id) = some v) :
    attributePath endpoint_id cluster_id attribute_id =
      toString endpoint_id ++ "/" ++ toString cluster_id ++ "/" ++ toString attribute_id ∧
    Event.readRequest node_id (attributePath endpoint_id cluster_id attribute_id) ∈
      (read_attribute_value resp node_id endpoint_id cluster_id attribute_id).2 ∧
    Event.writeRequest node_id (attributePath endpoint_id cluster_id attribute_id) value ∈
      (write_attribute_value resp node_id endpoint_id cluster_id attribute_id value).2 ∧
    (read_attribute_value (.ok (.vdict d)) node_id endpoint_id cluster_id attribute_id).1 =
      PyVal.scalar v := by
  refine ⟨rfl, readRequest_mem .., writeRequest_mem .., ?_⟩
  simp [read_attribute_value, pNone, hd]

/-- Witness for `attribute_path_encoding` at the spec's worked scenario
(endpoint 1, cluster 1030, attribute 3). -/
theorem attribute_path_encoding_witness :
    ([("1/1030/3", Scalar.sint 20)].lookup (attributePath 1 1030 3) = some (Scalar.sint 20)) ∧
    (attributePath 1 1030 3 =
      toString (1 : Int) ++ "/" ++ toString (1030 : Int) ++ "/" ++ toString (3 : Int) ∧
    Event.readRequest 3 (attributePath 1 1030 3) ∈
      (read_attribute_value (.ok pNone) 3 1 1030 3).2 ∧
    Event.writeRequest 3 (attributePath 1 1030 3) 30 ∈
      (write_attribute_value (.ok pNone) 3 1 1030 3 30).2 ∧
    (read_attribute_value (.ok (.vdict [("1/1030/3", Scalar.sint 20)])) 3 1 1030 3).1 =
      PyVal.scalar (Scalar.sint 20)) :=
  ⟨by decide, attribute_path_encoding (.ok pNone) 3 1 1030 3 30 _ _ (by decide)⟩

/-- C2: if the write call raises, the run returns the failure result `False`
immediately, its whole output is independent of what the verification read
would have answered, and exactly one read request (the baseline one) appears
in the trace — the verification read is never issued. -/
theorem write_failure_short_circuits (new_value node_id endpoint_id cluster_id attribute_id : Int)
    (url : String) (e : Exn) (r1 r2 r2' : Except Exn PyVal) :
    (configure_attribute_value new_value node_id endpoint_id cluster_id attribute_id url
        (.ok ()) r1 (.error e) r2).1 = false ∧
    configure_attribute_value new_value node_id endpoint_id cluster_id attribute_id url
        (.ok ()) r1 (.error e) r2 =
      configure_attribute_value new_value node_id endpoint_id cluster_id attribute_id url
        (.ok ()) r1 (.error e) r2' ∧
    ((configure_attribute_value new_value node_id endpoint_id cluster_id attribute_id url
        (.ok ()) r1 (.error e) r2).2.countP isReadRequest) = 1 := by
  refine ⟨?_, ?_, ?_⟩
  · simp [configure_attribute_value, write_attribute_value]
  · simp [configure_attribute_value, write_attribute_value]
  · by_cases h1 : (read_attribute_value r1 node_id endpoint_id cluster_id attribute_id).1 = pNone <;>
      simp [configure_attribute_value, write_attribute_value, h1, List.countP_append,
        List.countP_cons, isReadRequest, countP_read_trace]

/-- C4: the baseline read is non-fatal — whatever the first read call
returns (a value, absent, or a raised exception), the run still issues the
write request, and the boolean result does not depend on the baseline read's
outcome at all. -/
theorem baseline_read_nonfatal (new_value node_id endpoint_id cluster_id attribute_id : Int)
    (url : String) (r1 r1' w r2 : Except Exn PyVal) :
    Event.writeRequest node_id (attributePath endpoint_id cluster_id attribute_id) new_value ∈
      (configure_attribute_value new_value node_id endpoint_id cluster_id attribute_id url
        (.ok ()) r1 w r2).2 ∧
    (configure_attribute_value new_value node_id endpoint_id cluster_id attribute_id url
        (.ok ()) r1 w r2).1 =
    (configure_attribute_value new_value node_id endpoint_id cluster_id attribute_id url
        (.ok ()) r1' w r2).1 := by
  constructor
  · by_cases h1 : (read_attribute_value r1 node_id endpoint_id cluster_id attribute_id).1 = pNone <;>
    by_cases h2 : (write_attribute_value w node_id endpoint_id cluster_id attribute_id new_value).1 = false <;>
    by_cases h3 : (read_attribute_value r2 node_id endpoint_id cluster_id attribute_id).1 = pNone <;>
    by_cases h4 : (read_attribute_value r2 node_id endpoint_id cluster_id attribute_id).1 =
      PyVal.scalar (Scalar.sint new_value) <;>
      simp [configure_attribute_value, h1, h2, h3, h4, List.mem_append, writeRequest_mem]
  · rw [configure_result_ok, configure_result_ok]

/-- C1: when the write succeeds and the post-delay verification read yields a
present value `v`, the run succeeds exactly when `v` equals the desired
value; when `v` differs, the run is a failure that carries the observed value
`v` in its mismatch warning. -/
theorem verification_compares_values (new_value node_id endpoint_id cluster_id attribute_id : Int)
    (url : String) (r1 w r2 : Except Exn PyVal)
    (hw : (write_attribute_value w node_id endpoint_id cluster_id attribute_id new_value).1 = true)
    (hv : (read_attribute_value r2 node_id endpoint_id cluster_id attribute_id).1 ≠ pNone) :
    ((configure_attribute_value new_value node_id endpoint_id cluster_id attribute_id url
        (.ok ()) r1 w r2).1 = true ↔
      (read_attribute_value r2 node_id endpoint_id cluster_id attribute_id).1 =
        PyVal.scalar (Scalar.sint new_value)) ∧
    ((read_attribute_value r2 node_id endpoint_id cluster_id attribute_id).1 ≠
        PyVal.scalar (Scalar.sint new_value) →
      (configure_attribute_value new_value node_id endpoint_id cluster_id attribute_id url
        (.ok ()) r1 w r2).1 = false ∧
      mismatchWarning (read_attribute_value r2 node_id endpoint_id cluster_id attribute_id).1 new_value ∈
        (configure_attribute_value new_value node_id endpoint_id cluster_id attribute_id url
          (.ok ()) r1 w r2).2) := by
  constructor
  · rw [configure_result_ok]
    by_cases h4 : (read_attribute_value r2 node_id endpoint_id cluster_id attribute_id).1 =
        PyVal.scalar (Scalar.sint new_value) <;>
      simp [hw, hv, h4]
  · intro h4
    constructor
    · rw [configure_result_ok]
      simp [hw, hv, h4]
    · by_cases h1 : (read_attribute_value r1 node_id endpoint_id cluster_id attribute_id).1 = pNone <;>
        simp [configure_attribute_value, mismatchWarning, h1, hw, hv, h4, List.mem_append]

/-- Witness for `verification_compares_values`: node 3, endpoint 1, cluster
1030, attribute 3, desired 30, verification read shows 25. -/
theorem verification_compares_values_witness :
    ((write_attribute_value (.ok pNone) 3 1 1030 3 30).1 = true) ∧
    ((read_attribute_value (.ok (.vdict [("1/1030/3", Scalar.sint 25)])) 3 1 1030 3).1 ≠ pNone) ∧
    (((configure_attribute_value 30 3 1 1030 3 "ws://homeassistant.local:5580/ws"
        (.ok ()) (.ok (.vdict [("1/1030/3", Scalar.sint 20)])) (.ok pNone)
        (.ok (.vdict [("1/1030/3", Scalar.sint 25)]))).1 = true ↔
      (read_attribute_value (.ok (.vdict [("1/1030/3", Scalar.sint 25)])) 3 1 1030 3).1 =
        PyVal.scalar (Scalar.sint 30)) ∧
    ((read_attribute_value (.ok (.vdict [("1/1030/3", Scalar.sint 25)])) 3 1 1030 3).1 ≠
        PyVal.scalar (Scalar.sint 30) →
      (configure_attribute_value 30 3 1 1030 3 "ws://homeassistant.local:5580/ws"
        (.ok ()) (.ok (.vdict [("1/1030/3", Scalar.sint 20)])) (.ok pNone)
        (.ok (.vdict [("1/1030/3", Scalar.sint 25)]))).1 = false ∧
      mismatchWarning (read_attribute_value (.ok (.vdict [("1/1030/3", Scalar.sint 25)])) 3 1 1030 3).1 30 ∈
        (configure_attribute_value 30 3 1 1030 3 "ws://homeassistant.local:5580/ws"
          (.ok ()) (.ok (.vdict [("1/1030/3", Scalar.sint 20)])) (.ok pNone)
          (.ok (.vdict [("1/1030/3", Scalar.sint 25)]))).2)) :=
  ⟨rfl, by decide,
   verification_compares_values 30 3 1 1030 3 "ws://homeassistant.local:5580/ws"
     (.ok (.vdict [("1/1030/3", Scalar.sint 20)])) (.ok pNone)
     (.ok (.vdict [("1/1030/3", Scalar.sint 25)])) rfl (by decide)⟩

/-- C3 counterexample: the result value `configure_attribute_value` hands to
its caller is a boolean, and a run whose verification read shows a different
value (a `VerificationMismatch` situation) returns the very same result,
`False`, as a run whose verification read raises and yields no value (a
`Failure` situation) — so the three outcomes are not mutually distinguishable
in the result the caller receives. -/
theorem mismatch_and_absent_return_same_result :
    (configure_attribute_value 30 3 1 1030 3 "ws://homeassistant.local:5580/ws" (.ok ())
        (.ok (.vdict [("1/1030/3", Scalar.sint 20)])) (.ok pNone)
        (.ok (.vdict [("1/1030/3", Scalar.sint 25)]))).1 =
      (configure_attribute_value 30 3 1 1030 3 "ws://homeassistant.local:5580/ws" (.ok ())
        (.ok (.vdict [("1/1030/3", Scalar.sint 20)])) (.ok pNone)
        (.error "read timeout")).1 ∧
    (configure_attribute_value 30 3 1 1030 3 "ws://homeassistant.local:5580/ws" (.ok ())
        (.ok (.vdict [("1/1030/3", Scalar.sint 20)])) (.ok pNone)
        (.ok (.vdict [("1/1030/3", Scalar.sint 25)]))).1 = false :=
  ⟨rfl, rfl⟩

/-- C3 amended: after a successful write the run's boolean result is `True`
exactly for a verified equal value, and the three situations are told apart
by the run's full observable output: success alone returns `True`; the
absent-verification failure logs its dedicated warning; the mismatch failure
logs the observed-value warning and never the absent-verification one. -/
theorem outcome_distinguished_by_result_and_logs
    (new_value node_id endpoint_id cluster_id attribute_id : Int)
    (url : String) (r1 w r2 : Except Exn PyVal)
    (hw : (write_attribute_value w node_id endpoint_id cluster_id attribute_id new_value).1 = true) :
    ((configure_attribute_value new_value node_id endpoint_id cluster_id attribute_id url
        (.ok ()) r1 w r2).1 = true ↔
      (read_attribute_value r2 node_id endpoint_id cluster_id attribute_id).1 =
        PyVal.scalar (Scalar.sint new_value)) ∧
    ((read_attribute_value r2 node_id endpoint_id cluster_id attribute_id).1 = pNone →
      (configure_attribute_value new_value node_id endpoint_id cluster_id attribute_id url
        (.ok ()) r1 w r2).1 = false ∧
      absentWarning ∈ (configure_attribute_value new_value node_id endpoint_id cluster_id
        attribute_id url (.ok ()) r1 w r2).2) ∧
    ((read_attribute_value r2 node_id endpoint_id cluster_id attribute_id).1 ≠ pNone →
     (read_attribute_value r2 node_id endpoint_id cluster_id attribute_id).1 ≠
        PyVal.scalar (Scalar.sint new_value) →
      (configure_attribute_value new_value node_id endpoint_id cluster_id attribute_id url
        (.ok ()) r1 w r2).1 = false ∧
      mismatchWarning (read_attribute_value r2 node_id endpoint_id cluster_id attribute_id).1
          new_value ∈
        (configure_attribute_value new_value node_id endpoint_id cluster_id attribute_id url
          (.ok ()) r1 w r2).2 ∧
      absentWarning ∉ (configure_attribute_value new_value node_id endpoint_id cluster_id
        attribute_id url (.ok ()) r1 w r2).2) ∧
    ((read_attribute_value r2 node_id endpoint_id cluster_id attribute_id).1 =
        PyVal.scalar (Scalar.sint new_value) →
      absentWarning ∉ (configure_attribute_value new_value node_id endpoint_id cluster_id
        attribute_id url (.ok ()) r1 w r2).2) := by
  refine ⟨?_, ?_, ?_, ?_⟩
  · rw [configure_result_ok]
    by_cases h4 : (read_attribute_value r2 node_id endpoint_id cluster_id attribute_id).1 =
        PyVal.scalar (Scalar.sint new_value)
    · simp [hw, h4]
    · by_cases h3 : (read_attribute_value r2 node_id endpoint_id cluster_id attribute_id).1 = pNone <;>
        simp [hw, h3, h4, pNone]
  · intro h3
    constructor
    · rw [configure_result_ok]
      simp [hw, h3]
    · by_cases h1 : (read_attribute_value r1 node_id endpoint_id cluster_id attribute_id).1 = pNone <;>
        simp [configure_attribute_value, absentWarning, h1, hw, h3, List.mem_append]
  · intro h3 h4
    refine ⟨?_, ?_, ?_⟩
    · rw [configure_result_ok]
      simp [hw, h3, h4]
    · by_cases h1 : (read_attribute_value r1 node_id endpoint_id cluster_id attribute_id).1 = pNone <;>
        simp [configure_attribute_value, mismatchWarning, h1, hw, h3, h4, List.mem_append]
    · by_cases h1 : (read_attribute_value r1 node_id endpoint_id cluster_id attribute_id).1 = pNone <;>
        simp [configure_attribute_value, h1, hw, h3, h4, List.mem_append, read_no_warning,
          write_no_warning, absentWarning] <;>
        exact absent_msg_ne_mismatch_msg _ _
  · intro h4
    by_cases h1 : (read_attribute_value r1 node_id endpoint_id cluster_id attribute_id).1 = pNone <;>
      simp [configure_attribute_value, h1, hw, h4, List.mem_append, read_no_warning,
        write_no_warning, absentWarning]

/-- Witness for `outcome_distinguished_by_result_and_logs` with a successful
write and a mismatching verification read (25 instead of 30). -/
theorem outcome_distinguished_by_result_and_logs_witness :
    ((write_attribute_value (.ok pNone) 3 1 1030 3 30).1 = true) ∧
    (((configure_attribute_value 30 3 1 1030 3 "u" (.ok ()) (.ok pNone) (.ok pNone)
        (.ok (.vdict [("1/1030/3", Scalar.sint 25)]))).1 = true ↔
      (read_attribute_value (.ok (.vdict [("1/1030/3", Scalar.sint 25)])) 3 1 1030 3).1 =
        PyVal.scalar (Scalar.sint 30)) ∧
    ((read_attribute_value (.ok (.vdict [("1/1030/3", Scalar.sint 25)])) 3 1 1030 3).1 = pNone →
      (configure_attribute_value 30 3 1 1030 3 "u" (.ok ()) (.ok pNone) (.ok pNone)
        (.ok (.vdict [("1/1030/3", Scalar.sint 25)]))).1 = false ∧
      absentWarning ∈ (configure_attribute_value 30 3 1 1030 3 "u" (.ok ()) (.ok pNone) (.ok pNone)
        (.ok (.vdict [("1/1030/3", Scalar.sint 25)]))).2) ∧
    ((read_attribute_value (.ok (.vdict [("1/1030/3", Scalar.sint 25)])) 3 1 1030 3).1 ≠ pNone →
     (read_attribute_value (.ok (.vdict [("1/1030/3", Scalar.sint 25)])) 3 1 1030 3).1 ≠
        PyVal.scalar (Scalar.sint 30) →
      (configure_attribute_value 30 3 1 1030 3 "u" (.ok ()) (.ok pNone) (.ok pNone)
        (.ok (.vdict [("1/1030/3", Scalar.sint 25)]))).1 = false ∧
      mismatchWarning (read_attribute_value (.ok (.vdict [("1/1030/3", Scalar.sint 25)])) 3 1 1030 3).1 30 ∈
        (configure_attribute_value 30 3 1 1030 3 "u" (.ok ()) (.ok pNone) (.ok pNone)
          (.ok (.vdict [("1/1030/3", Scalar.sint 25)]))).2 ∧
      absentWarning ∉ (configure_attribute_value 30 3 1 1030 3 "u" (.ok ()) (.ok pNone) (.ok pNone)
        (.ok (.vdict [("1/1030/3", Scalar.sint 25)]))).2) ∧
    ((read_attribute_value (.ok (.vdict [("1/1030/3", Scalar.sint 25)])) 3 1 1030 3).1 =
        PyVal.scalar (Scalar.sint 30) →
      absentWarning ∉ (configure_attribute_value 30 3 1 1030 3 "u" (.ok ()) (.ok pNone) (.ok pNone)
        (.ok (.vdict [("1/1030/3", Scalar.sint 25)]))).2)) :=
  ⟨rfl, outcome_distinguished_by_result_and_logs 30 3 1 1030 3 "u" (.ok pNone) (.ok pNone)
    (.ok (.vdict [("1/1030/3", Scalar.sint 25)])) rfl⟩

/-- C7: the confirmation gate computed by `main` (strip, lower-case, then
`startswith('y')`) agrees with the spec's phrasing — after trimming, the
answer must start with `'y'` or `'Y'` — and the run is performed exactly when
the gate holds: a declining answer yields `cancelled`, with no configuration
run and hence no connection, read, or write. -/
theorem confirmation_gates_run (node_id endpoint_id cluster_id attribute_id attribute_value : Int)
    (url : String) (confirm : List Char) (connect : Except Exn Unit) (r1 w r2 : Except Exn PyVal) :
    confirmGate confirm = specGate confirm ∧
    main_run ⟨some node_id, some endpoint_id, some cluster_id, some attribute_id,
        some attribute_value, url⟩ [confirm] connect r1 w r2 =
      (if specGate confirm = true then
        MainOutcome.ran
          (configure_attribute_value attribute_value node_id endpoint_id cluster_id attribute_id
            url connect r1 w r2).1
          (configure_attribute_value attribute_value node_id endpoint_id cluster_id attribute_id
            url connect r1 w r2).2
       else MainOutcome.cancelled) := by
  have hgate : confirmGate confirm = specGate confirm := by
    unfold confirmGate specGate
    cases h : pyStrip confirm with
    | nil => simp
    | cons c l =>
        simp only [List.map_cons]
        by_cases hy : Char.toLower c = 'y'
        · rcases (toLower_eq_y_iff c).mp hy with rfl | rfl <;> simp
        · have h1 : ¬ c = 'y' := fun hc => hy ((toLower_eq_y_iff c).mpr (Or.inl hc))
          have h2 : ¬ c = 'Y' := fun hc => hy ((toLower_eq_y_iff c).mpr (Or.inr hc))
          simp [hy, h1, h2]
  refine ⟨hgate, ?_⟩
  simp only [main_run, resolveValue, hgate]

/-- C8 counterexample: `int()` happily parses a negative identifier, no
validation rejects it, and the run proceeds to the connect/read/write
sequence — here the baseline read request is issued for node `-1`. -/
theorem negative_id_run_proceeds :
    get_user_input ["-1".data, "y".data] = some (-1, ["y".data]) ∧
    ((-1 : Int) < 0) ∧
    Event.readRequest (-1) "2/3/4" ∈
      (main_run ⟨none, some 2, some 3, some 4, some 5, "u"⟩ ["-1".data, "y".data] (.ok ())
        (.error "x") (.error "x") (.error "x")).trace := by
  refine ⟨by decide, by decide, by decide⟩

/-- C8 amended: the identifiers are required to be integers, but the tool
performs no non-negativity check — for every integers (negative ones
included) supplied as arguments, a confirmed run proceeds to the full
configuration sequence with exactly those identifiers. -/
theorem ids_flow_unvalidated (node_id endpoint_id cluster_id attribute_id attribute_value : Int)
    (url : String) (connect : Except Exn Unit) (r1 w r2 : Except Exn PyVal) :
    main_run ⟨some node_id, some endpoint_id, some cluster_id, some attribute_id,
        some attribute_value, url⟩ ["y".data] connect r1 w r2 =
      MainOutcome.ran
        (configure_attribute_value attribute_value node_id endpoint_id cluster_id attribute_id
          url connect r1 w r2).1
        (configure_attribute_value attribute_value node_id endpoint_id cluster_id attribute_id
          url connect r1 w r2).2 := by
  have hgate : confirmGate "y".data = true := by decide
  simp [main_run, resolveValue, hgate]

/-- C10: a non-`None` read result that is not a dict keyed by the attribute
path string is returned by `read_attribute_value` unchanged, and during
verification this raw value is compared directly against the desired value:
the run succeeds exactly when the raw result equals the desired integer. -/
theorem raw_read_result_passthrough (new_value node_id endpoint_id cluster_id attribute_id : Int)
    (url : String) (r1 w : Except Exn PyVal) (r : PyVal)
    (hr : r ≠ pNone)
    (hd : dictHasPath r (attributePath endpoint_id cluster_id attribute_id) = false)
    (hw : (write_attribute_value w node_id endpoint_id cluster_id attribute_id new_value).1 = true) :
    (read_attribute_value (.ok r) node_id endpoint_id cluster_id attribute_id).1 = r ∧
    ((configure_attribute_value new_value node_id endpoint_id cluster_id attribute_id url
        (.ok ()) r1 w (.ok r)).1 = true ↔ r = PyVal.scalar (Scalar.sint new_value)) := by
  have hread : (read_attribute_value (.ok r) node_id endpoint_id cluster_id attribute_id).1 = r := by
    cases r with
    | scalar s => simp [read_attribute_value, hr]
    | vdict d =>
        cases hl : d.lookup (attributePath endpoint_id cluster_id attribute_id) with
        | some v =>
            exfalso
            rw [dictHasPath, hl] at hd
            exact absurd hd (by simp)
        | none => simp [read_attribute_value, hr, hl]
  refine ⟨hread, ?_⟩
  rw [configure_result_ok, hread]
  by_cases h4 : r = PyVal.scalar (Scalar.sint new_value) <;> simp [hw, hr, h4]

/-- Witness for `raw_read_result_passthrough`: the verification read answers
with a dict keyed by a different path, so the raw dict is compared against
the desired integer and the run fails. -/
theorem raw_read_result_passthrough_witness :
    ((PyVal.vdict [("0/0/0", Scalar.sint 30)]) ≠ pNone) ∧
    (dictHasPath (PyVal.vdict [("0/0/0", Scalar.sint 30)]) (attributePath 1 1030 3) = false) ∧
    ((write_attribute_value (.ok pNone) 3 1 1030 3 30).1 = true) ∧
    ((read_attribute_value (.ok (PyVal.vdict [("0/0/0", Scalar.sint 30)])) 3 1 1030 3).1 =
      PyVal.vdict [("0/0/0", Scalar.sint 30)] ∧
    ((configure_attribute_value 30 3 1 1030 3 "u" (.ok ()) (.ok pNone) (.ok pNone)
        (.ok (PyVal.vdict [("0/0/0", Scalar.sint 30)]))).1 = true ↔
      PyVal.vdict [("0/0/0", Scalar.sint 30)] = PyVal.scalar (Scalar.sint 30))) :=
  ⟨by decide, by decide, rfl,
   raw_read_result_passthrough 30 3 1 1030 3 "u" (.ok pNone) (.ok pNone)
     (PyVal.vdict [("0/0/0", Scalar.sint 30)]) (by decide) (by decide) rfl⟩

end MatterConfig
